/-
  Verification of `run_export.py` (AutoCAD Plant 3D export orchestration).

  The Python module drives one external CAD host run: it validates three
  input paths, synthesizes a five-line AutoCAD script into a working
  directory, and launches the host with two parameter environment
  variables, returning the child's exit code.

  Shallow embedding: filesystem state is an explicit `FS` value, the
  ambient `os.environ` is an association list, and `subprocess.run` is an
  oracle function from (argument vector, environment, working directory)
  to an exit code.  `pathlib`'s `PureWindowsPath` behaviour, as exercised
  by this module (drive-letter absolute paths and relative paths; no UNC
  shares), is modelled by `PPath`.
-/
import Mathlib

set_option maxHeartbeats 1000000

/-- Split a list of characters at every occurrence of `c`.  The result
always has one more element than the number of occurrences of `c`; a
trailing `c` yields a trailing `[]`.  Used to state line structure of the
synthesized script text. -/
def splitOnChar (c : Char) : List Char → List (List Char)
  | [] => [[]]
  | x :: xs =>
    if x = c then [] :: splitOnChar c xs
    else
      match splitOnChar c xs with
      | [] => [[x]]
      | l :: ls => (x :: l) :: ls

/-- The lines of a text, splitting on the newline character.  A
newline-terminated text of n lines yields n parts followed by a final
empty part. -/
def textLines (t : String) : List String :=
  (splitOnChar '\n' t.data).map (fun l => String.mk l)

/-- `str.join`-style concatenation with a separator, mirroring Python's
`sep.join(list)`. -/
def joinLines (sep : String) : List String → String
  | [] => ""
  | [l] => l
  | l :: l2 :: ls => l ++ sep ++ joinLines sep (l2 :: ls)

/-- First-match lookup in an association list of strings (Python `dict`
access / `os.environ.get`). -/
def lookupStr : List (String × String) → String → Option String
  | [], _ => none
  | (k, v) :: rest, key => if k = key then some v else lookupStr rest key

/-- `dict.get(key, default)`: lookup with a fallback default. -/
def lookupStrD (e : List (String × String)) (key dflt : String) : String :=
  match lookupStr e key with
  | some v => v
  | none => dflt

/-- `d[key] = value` on an association list: replace the first binding of
`key`, or append a new binding. -/
def setStr : List (String × String) → String → String → List (String × String)
  | [], k, v => [(k, v)]
  | (k', v') :: rest, k, v =>
    if k' = k then (k, v) :: rest else (k', v') :: setStr rest k v

/-- A parsed Windows path, modelling `pathlib.PureWindowsPath` as used by
`run_export.py`: an optional drive (e.g. `"C:"`), whether a root separator
is present, and the non-anchor components.  UNC shares are not used by the
module and are not modelled. -/
structure PPath where
  drive : String
  root : Bool
  parts : List String
deriving DecidableEq, Repr

namespace PPath

/-- `Path(s)` parsing: `/` is accepted as a separator and normalized to
`\`, consecutive separators collapse, and single-dot components are
dropped — exactly pathlib's component normalization (no `..` resolution,
no absolutization). -/
def parse (s : String) : PPath :=
  let cs := s.data.map (fun c => if c = '/' then '\\' else c)
  let driveLen :=
    match cs with
    | c :: ':' :: _ => if c.isAlpha then 2 else 0
    | _ => 0
  let drive : String := String.mk (cs.take driveLen)
  let rest := cs.drop driveLen
  let root : Bool :=
    match rest with
    | '\\' :: _ => true
    | _ => false
  let parts := (splitOnChar '\\' rest).filter (fun l => !l.isEmpty && l ≠ ['.'])
  ⟨drive, root, parts.map (fun l => String.mk l)⟩

/-- `str(path)`: drive, then the root separator if present, then the
components joined with `\`; the empty path prints as `"."`. -/
def str (p : PPath) : String :=
  let pre := p.drive ++ (if p.root then "\\" else "")
  if pre = "" && p.parts.isEmpty then "." else pre ++ joinLines "\\" p.parts

/-- `parent / child` (pathlib `/` with a string right operand): an
anchored right operand replaces the left per pathlib's rules, otherwise
the components are appended. -/
def join (p : PPath) (s : String) : PPath :=
  let q := parse s
  if q.drive ≠ "" then q
  else if q.root then ⟨p.drive, true, q.parts⟩
  else ⟨p.drive, p.root, p.parts ++ q.parts⟩

/-- `path.parent`: drop the last component; anchors and the empty path are
their own parent. -/
def parent (p : PPath) : PPath :=
  match p.parts with
  | [] => p
  | _ => ⟨p.drive, p.root, p.parts.dropLast⟩

/-- `PureWindowsPath.is_absolute()`: needs both a drive and a root. -/
def isAbsolute (p : PPath) : Bool :=
  p.root && !(p.drive.isEmpty)

end PPath

/-- The filesystem state visible to the module: which (normalized) paths
exist, which of those are directories, and the text contents of written
files. -/
structure FS where
  entries : List String
  dirs : List String
  contents : List (String × String)
deriving DecidableEq, Repr

namespace FS

/-- `path.exists()`. -/
def pathExists (fs : FS) (s : String) : Bool :=
  fs.entries.contains s

/-- `path.is_dir()`: the path exists and is a directory. -/
def isDir (fs : FS) (s : String) : Bool :=
  fs.entries.contains s && fs.dirs.contains s

/-- Ensure a single directory exists (one step of
`mkdir(exist_ok=True)`): a no-op when the path already exists. -/
def addDir (fs : FS) (s : String) : FS :=
  if fs.entries.contains s then fs
  else ⟨s :: fs.entries, s :: fs.dirs, fs.contents⟩

/-- The chain of ancestor paths of `p`, shortest first, ending with `p`
itself. -/
def ancestorsOf (p : PPath) : List PPath :=
  (List.range (p.parts.length + 1)).map (fun i => ⟨p.drive, p.root, p.parts.take i⟩)

/-- `path.mkdir(parents=True, exist_ok=True)`: create the directory and
all missing ancestors; idempotent. -/
def mkdirParents (fs : FS) (p : PPath) : FS :=
  (ancestorsOf p).foldl (fun acc q => acc.addDir q.str) fs

/-- `path.write_text(text, encoding="utf-8")`: create the file if absent
and overwrite its contents.  Contents are modelled as the decoded text;
UTF-8 is the (injective) on-disk serialization. -/
def writeText (fs : FS) (s content : String) : FS :=
  ⟨if fs.entries.contains s then fs.entries else s :: fs.entries,
   fs.dirs,
   setStr fs.contents s content⟩

/-- Read back the text contents of a written file. -/
def readText (fs : FS) (s : String) : Option String :=
  lookupStr fs.contents s

end FS

/-- One `subprocess.run(cmd, env=env, cwd=cwd)` call: the argument
vector, the child environment, and the child working directory. -/
structure LaunchRecord where
  cmd : List String
  env : List (String × String)
  cwd : String
deriving DecidableEq, Repr

/-- How a call to `export_plant_json` finished: it returned the child's
exit code, or it raised `FileNotFoundError(str(path))`. -/
inductive Outcome where
  | ok (code : Int)
  | fileNotFound (path : String)
deriving DecidableEq, Repr

/-- The observable result of a call to `export_plant_json`: the returned
exit code or the raised `FileNotFoundError` (carrying `str(path)`), the
filesystem afterwards, `os.environ` afterwards, and the trace of child
processes launched. -/
structure ExportResult where
  outcome : Outcome
  fs : FS
  environ : List (String × String)
  launches : List LaunchRecord
deriving DecidableEq, Repr

/-- Default `acad_exe` keyword argument of `export_plant_json`. -/
def defaultAcadExe : String := "C:\\Program Files\\Autodesk\\AutoCAD 2026\\acad.exe"

/-- Default `workdir` keyword argument of `export_plant_json`. -/
def defaultWorkdir : String := "C:\\PlantAutomationRun"

/-- The five lines of the AutoCAD script (`run_export.py` lines 35–43):
NETLOAD, the quoted plugin path, the export command, QUIT, and the
confirmation token. -/
def scr_lines (plugin_dll : PPath) : List String :=
  ["_.NETLOAD",
   "\"" ++ plugin_dll.str ++ "\"",
   "_.EXPORTPLANTJSON",
   "_.QUIT",
   "Y"]

/-- `scr_text`: the joined script text with a trailing newline
(`"\n".join([...]) + "\n"`). -/
def scr_text_of (plugin_dll : PPath) : String :=
  joinLines "\n" (scr_lines plugin_dll) ++ "\n"

/-- `export_plant_json(project_xml, out_json, plugin_dll, acad_exe=...,
workdir=...)`: validate the three inputs, create the working directory
and the output's parent, write the script, and launch the host with the
two parameter environment variables.  `environ` is the ambient
`os.environ`; `run` is the `subprocess.run` exit-code oracle. -/
def export_plant_json (environ : List (String × String))
    (run : List String → List (String × String) → String → Int)
    (fs : FS)
    (project_xml out_json plugin_dll acad_exe workdir : String) : ExportResult :=
  let acad := PPath.parse acad_exe
  let project := PPath.parse project_xml
  let outj := PPath.parse out_json
  let plugin := PPath.parse plugin_dll
  let wd := PPath.parse workdir
  if !fs.pathExists acad.str then
    ⟨Outcome.fileNotFound acad.str, fs, environ, []⟩
  else if !fs.pathExists project.str then
    ⟨Outcome.fileNotFound project.str, fs, environ, []⟩
  else if !fs.pathExists plugin.str then
    ⟨Outcome.fileNotFound plugin.str, fs, environ, []⟩
  else
    let fs1 := fs.mkdirParents wd
    let fs2 := fs1.mkdirParents outj.parent
    let scr_path := wd.join "run.scr"
    let scr_text := scr_text_of plugin
    let fs3 := fs2.writeText scr_path.str scr_text
    let env := setStr (setStr environ "PLANT_PROJECT_XML" project.str)
      "PLANT_JSON_OUT" outj.str
    let cmd := [acad.str, "/product", "PLNT3D", "/b", scr_path.str]
    let code := run cmd env wd.str
    ⟨Outcome.ok code, fs3, environ, [⟨cmd, env, wd.str⟩]⟩

/-- `default_plugin_dll()`: the release DLL path under the repository
root (`Path(__file__).resolve().parent`, passed here as `repoRoot`). -/
def default_plugin_dll (repoRoot : String) : PPath :=
  ((((((PPath.parse repoRoot).join "addin").join "bin").join "Release").join
    "net8.0-windows").join "PlantJsonExporter.dll")

/-- Fallback default for `PLANT_PROJECT_XML` in `main`. -/
def defaultProjectXml : String :=
  "C:\\Users\\aleja\\Downloads\\NIRAS P3D Demo Project\\P3D-FBUK Example Project\\Project.xml"

/-- Fallback default for `PLANT_JSON_OUT` in `main`. -/
def defaultOutJson : String := "C:\\PlantAutomationRun\\plant_export.json"

/-- The project file path `main` resolves from the environment. -/
def main_project_xml (environ : List (String × String)) : String :=
  lookupStrD environ "PLANT_PROJECT_XML" defaultProjectXml

/-- The raw output path `main` resolves from the environment, before the
directory check. -/
def main_out_json_raw (environ : List (String × String)) : String :=
  lookupStrD environ "PLANT_JSON_OUT" defaultOutJson

/-- The plugin path `main` resolves from the environment. -/
def main_plugin_dll (environ : List (String × String)) (repoRoot : String) : String :=
  lookupStrD environ "PLANT_PLUGIN_DLL" (default_plugin_dll repoRoot).str

/-- `main()` (named `main_fn` since `main` is reserved in Lean): resolve the three configuration values from the
environment with fallback defaults, append the default filename when the
output path is an existing directory, and delegate to
`export_plant_json` with its default `acad_exe` and `workdir`. -/
def main_fn (environ : List (String × String))
    (run : List String → List (String × String) → String → Int)
    (fs : FS) (repoRoot : String) : ExportResult :=
  let project_xml := main_project_xml environ
  let out_json0 := main_out_json_raw environ
  let plugin_dll := main_plugin_dll environ repoRoot
  let out_json :=
    if fs.isDir (PPath.parse out_json0).str then
      ((PPath.parse out_json0).join "plant_export.json").str
    else out_json0
  export_plant_json environ run fs project_xml out_json plugin_dll
    defaultAcadExe defaultWorkdir

/-- `raise SystemExit(main())`: the interpreter's exit status is the
returned integer; an uncaught `FileNotFoundError` instead terminates the
interpreter with status 1. -/
def script_exit (r : ExportResult) : Int :=
  match r.outcome with
  | Outcome.ok n => n
  | Outcome.fileNotFound _ => 1

/-! ### Helper lemmas -/

theorem splitOnChar_of_not_mem {c : Char} {xs : List Char} (h : c ∉ xs) :
    splitOnChar c xs = [xs] := by
  induction xs with
  | nil => rfl
  | cons x xs ih =>
    simp only [List.mem_cons, not_or] at h
    have hx : ¬ x = c := fun he => h.1 he.symm
    rw [splitOnChar, if_neg hx, ih h.2]

theorem splitOnChar_append_cons {c : Char} {xs : List Char} (ys : List Char)
    (h : c ∉ xs) :
    splitOnChar c (xs ++ c :: ys) = xs :: splitOnChar c ys := by
  induction xs with
  | nil => simp [splitOnChar]
  | cons x xs ih =>
    simp only [List.mem_cons, not_or] at h
    have hx : ¬ x = c := fun he => h.1 he.symm
    rw [List.cons_append, splitOnChar, if_neg hx, ih h.2]

theorem lookupStr_setStr_self (e : List (String × String)) (k v : String) :
    lookupStr (setStr e k v) k = some v := by
  induction e with
  | nil => simp [setStr, lookupStr]
  | cons kv rest ih =>
    by_cases hk : kv.1 = k
    · simp [setStr, hk, lookupStr]
    · simp [setStr, hk, lookupStr, ih]

theorem lookupStr_setStr_other (e : List (String × String)) (k v k' : String)
    (h : k ≠ k') :
    lookupStr (setStr e k v) k' = lookupStr e k' := by
  induction e with
  | nil => simp [setStr, lookupStr, h]
  | cons kv rest ih =>
    by_cases hk : kv.1 = k
    · simp [setStr, hk, lookupStr, h]
    · simp [setStr, hk, lookupStr, ih]

theorem FS.readText_writeText (fs : FS) (s content : String) :
    (fs.writeText s content).readText s = some content := by
  simp [FS.readText, FS.writeText, lookupStr_setStr_self]

/-- On the success path (all three inputs exist) `export_plant_json`
creates the directories, writes the script, and launches the host once
with the documented argument vector, environment, and working
directory. -/
theorem export_plant_json_ok (environ : List (String × String))
    (run : List String → List (String × String) → String → Int)
    (fs : FS) (project_xml out_json plugin_dll acad_exe workdir : String)
    (h1 : fs.pathExists (PPath.parse acad_exe).str = true)
    (h2 : fs.pathExists (PPath.parse project_xml).str = true)
    (h3 : fs.pathExists (PPath.parse plugin_dll).str = true) :
    export_plant_json environ run fs project_xml out_json plugin_dll acad_exe workdir
      = ⟨Outcome.ok (run
            [(PPath.parse acad_exe).str, "/product", "PLNT3D", "/b",
              ((PPath.parse workdir).join "run.scr").str]
            (setStr (setStr environ "PLANT_PROJECT_XML" (PPath.parse project_xml).str)
              "PLANT_JSON_OUT" (PPath.parse out_json).str)
            (PPath.parse workdir).str),
         ((fs.mkdirParents (PPath.parse workdir)).mkdirParents
             (PPath.parse out_json).parent).writeText
           ((PPath.parse workdir).join "run.scr").str
           (scr_text_of (PPath.parse plugin_dll)),
         environ,
         [⟨[(PPath.parse acad_exe).str, "/product", "PLNT3D", "/b",
              ((PPath.parse workdir).join "run.scr").str],
           setStr (setStr environ "PLANT_PROJECT_XML" (PPath.parse project_xml).str)
             "PLANT_JSON_OUT" (PPath.parse out_json).str,
           (PPath.parse workdir).str⟩]⟩ := by
  simp [export_plant_json, h1, h2, h3]

/-! ### Claim theorems -/

/-- C1 counterexample.  The claim says the synthesized script consists of
exactly four lines (which, newline-terminated, would split into five
parts, the last empty).  For the concrete plugin path
`C:\Plant Plugins\PlantJsonExporter.dll` the synthesized text splits into
six parts — five content lines plus the trailing empty part — so the
four-line claim is false. -/
theorem C1_four_lines_counterexample :
    (textLines (scr_text_of (PPath.parse "C:\\Plant Plugins\\PlantJsonExporter.dll"))).length ≠ 5
    ∧ (textLines (scr_text_of (PPath.parse "C:\\Plant Plugins\\PlantJsonExporter.dll"))).length = 6 := by
  decide

/-- C1 (amended).  For every plugin binary path whose rendered form
contains no newline (every valid Windows path), the synthesized script
text consists of exactly five lines in the fixed order: the load-plugin
command `_.NETLOAD`, the plugin path quoted on its own line (so embedded
spaces survive), the export command `_.EXPORTPLANTJSON`, the quit command
`_.QUIT`, and the confirmation token `Y`; the final empty part witnesses
the trailing newline.  The text is written with `encoding="utf-8"`. -/
theorem C1_script_five_lines (p : PPath) (h : '\n' ∉ p.str.data) :
    textLines (scr_text_of p)
      = ["_.NETLOAD", "\"" ++ p.str ++ "\"", "_.EXPORTPLANTJSON", "_.QUIT", "Y", ""] := by
  have hd : (scr_text_of p).data
      = "_.NETLOAD".data ++ '\n' ::
        (("\"" ++ p.str ++ "\"").data ++ '\n' ::
          ("_.EXPORTPLANTJSON".data ++ '\n' ::
            ("_.QUIT".data ++ '\n' :: ("Y".data ++ '\n' :: ([] : List Char))))) := by
    simp [scr_text_of, scr_lines, joinLines, String.data_append]
  have h1 : '\n' ∉ "_.NETLOAD".data := by decide
  have h2 : '\n' ∉ ("\"" ++ p.str ++ "\"").data := by
    simp [String.data_append, h]
  have h3 : '\n' ∉ "_.EXPORTPLANTJSON".data := by decide
  have h4 : '\n' ∉ "_.QUIT".data := by decide
  have h5 : '\n' ∉ "Y".data := by decide
  unfold textLines
  rw [hd, splitOnChar_append_cons _ h1, splitOnChar_append_cons _ h2,
    splitOnChar_append_cons _ h3, splitOnChar_append_cons _ h4,
    splitOnChar_append_cons _ h5]
  rfl

/-- C1 witness: the five-line shape at a concrete plugin path with
embedded spaces. -/
theorem C1_script_five_lines_witness :
    '\n' ∉ (PPath.parse "C:\\Plant Plugins\\My Exporter.dll").str.data
    ∧ textLines (scr_text_of (PPath.parse "C:\\Plant Plugins\\My Exporter.dll"))
      = ["_.NETLOAD", "\"" ++ (PPath.parse "C:\\Plant Plugins\\My Exporter.dll").str ++ "\"",
         "_.EXPORTPLANTJSON", "_.QUIT", "Y", ""] :=
  ⟨by decide, C1_script_five_lines (PPath.parse "C:\\Plant Plugins\\My Exporter.dll") (by decide)⟩

/-- C2.  Whenever any of the three required paths (host executable,
project file, plugin binary) does not exist, `export_plant_json` raises
`FileNotFoundError` carrying the rendered form of a genuinely missing one
of those three paths, leaves the filesystem untouched (in particular no
script file is created), and never launches the host process. -/
theorem C2_missing_input_rejected (environ : List (String × String))
    (run : List String → List (String × String) → String → Int)
    (fs : FS) (project_xml out_json plugin_dll acad_exe workdir : String)
    (h : fs.pathExists (PPath.parse acad_exe).str = false ∨
         fs.pathExists (PPath.parse project_xml).str = false ∨
         fs.pathExists (PPath.parse plugin_dll).str = false) :
    ∃ missing,
      (export_plant_json environ run fs project_xml out_json plugin_dll
          acad_exe workdir).outcome = Outcome.fileNotFound missing
      ∧ fs.pathExists missing = false
      ∧ (missing = (PPath.parse acad_exe).str ∨
         missing = (PPath.parse project_xml).str ∨
         missing = (PPath.parse plugin_dll).str)
      ∧ (export_plant_json environ run fs project_xml out_json plugin_dll
          acad_exe workdir).fs = fs
      ∧ (export_plant_json environ run fs project_xml out_json plugin_dll
          acad_exe workdir).launches = [] := by
  cases ha : fs.pathExists (PPath.parse acad_exe).str with
  | false =>
    exact ⟨(PPath.parse acad_exe).str, by simp [export_plant_json, ha], ha,
      Or.inl rfl, by simp [export_plant_json, ha], by simp [export_plant_json, ha]⟩
  | true =>
    cases hb : fs.pathExists (PPath.parse project_xml).str with
    | false =>
      exact ⟨(PPath.parse project_xml).str, by simp [export_plant_json, ha, hb], hb,
        Or.inr (Or.inl rfl), by simp [export_plant_json, ha, hb],
        by simp [export_plant_json, ha, hb]⟩
    | true =>
      cases hc : fs.pathExists (PPath.parse plugin_dll).str with
      | false =>
        exact ⟨(PPath.parse plugin_dll).str, by simp [export_plant_json, ha, hb, hc], hc,
          Or.inr (Or.inr rfl), by simp [export_plant_json, ha, hb, hc],
          by simp [export_plant_json, ha, hb, hc]⟩
      | true =>
        rcases h with h | h | h <;> simp_all

/-- Scenario B world: the host executable and the plugin exist, the
project file does not. -/
def fsScenarioB : FS :=
  ⟨["C:\\Program Files\\Autodesk\\AutoCAD 2026\\acad.exe", "C:\\plug\\Exporter.dll"], [], []⟩

/-- C2 witness: with the project file missing the run is rejected with a
missing-input error, the filesystem is unchanged and nothing is
launched. -/
theorem C2_missing_input_rejected_witness :
    (fsScenarioB.pathExists (PPath.parse defaultAcadExe).str = false ∨
     fsScenarioB.pathExists (PPath.parse "C:\\missing\\Project.xml").str = false ∨
     fsScenarioB.pathExists (PPath.parse "C:\\plug\\Exporter.dll").str = false)
    ∧ ∃ missing,
      (export_plant_json [] (fun _ _ _ => 0) fsScenarioB "C:\\missing\\Project.xml"
          "C:\\out\\plant.json" "C:\\plug\\Exporter.dll" defaultAcadExe
          defaultWorkdir).outcome = Outcome.fileNotFound missing
      ∧ fsScenarioB.pathExists missing = false
      ∧ (missing = (PPath.parse defaultAcadExe).str ∨
         missing = (PPath.parse "C:\\missing\\Project.xml").str ∨
         missing = (PPath.parse "C:\\plug\\Exporter.dll").str)
      ∧ (export_plant_json [] (fun _ _ _ => 0) fsScenarioB "C:\\missing\\Project.xml"
          "C:\\out\\plant.json" "C:\\plug\\Exporter.dll" defaultAcadExe
          defaultWorkdir).fs = fsScenarioB
      ∧ (export_plant_json [] (fun _ _ _ => 0) fsScenarioB "C:\\missing\\Project.xml"
          "C:\\out\\plant.json" "C:\\plug\\Exporter.dll" defaultAcadExe
          defaultWorkdir).launches = [] :=
  ⟨by decide,
   C2_missing_input_rejected [] (fun _ _ _ => 0) fsScenarioB "C:\\missing\\Project.xml"
     "C:\\out\\plant.json" "C:\\plug\\Exporter.dll" defaultAcadExe defaultWorkdir
     (by decide)⟩

/-- C9.  All three existence checks run before any filesystem mutation,
in the fixed order host executable, project file, plugin binary: when at
least one required input is missing the call raises with the filesystem
completely unchanged and no launch, and the error names the first
missing path in that order. -/
theorem C9_first_missing_in_order (environ : List (String × String))
    (run : List String → List (String × String) → String → Int)
    (fs : FS) (project_xml out_json plugin_dll acad_exe workdir : String)
    (h : ¬ (fs.pathExists (PPath.parse acad_exe).str = true ∧
            fs.pathExists (PPath.parse project_xml).str = true ∧
            fs.pathExists (PPath.parse plugin_dll).str = true)) :
    (export_plant_json environ run fs project_xml out_json plugin_dll
        acad_exe workdir).outcome
      = Outcome.fileNotFound
          (if fs.pathExists (PPath.parse acad_exe).str = false then
            (PPath.parse acad_exe).str
          else if fs.pathExists (PPath.parse project_xml).str = false then
            (PPath.parse project_xml).str
          else (PPath.parse plugin_dll).str)
    ∧ (export_plant_json environ run fs project_xml out_json plugin_dll
        acad_exe workdir).fs = fs
    ∧ (export_plant_json environ run fs project_xml out_json plugin_dll
        acad_exe workdir).launches = [] := by
  cases ha : fs.pathExists (PPath.parse acad_exe).str with
  | false => simp [export_plant_json, ha]
  | true =>
    cases hb : fs.pathExists (PPath.parse project_xml).str with
    | false => simp [export_plant_json, ha, hb]
    | true =>
      cases hc : fs.pathExists (PPath.parse plugin_dll).str with
      | false => simp [export_plant_json, ha, hb, hc]
      | true => exact absurd ⟨ha, hb, hc⟩ h

/-- C9 witness: on an empty filesystem all three inputs are missing and
the error names the host executable — the first in the fixed order. -/
theorem C9_first_missing_in_order_witness :
    (¬ ((FS.mk [] [] []).pathExists (PPath.parse defaultAcadExe).str = true ∧
        (FS.mk [] [] []).pathExists (PPath.parse "C:\\proj\\Project.xml").str = true ∧
        (FS.mk [] [] []).pathExists (PPath.parse "C:\\plug\\Exporter.dll").str = true))
    ∧ ((export_plant_json [] (fun _ _ _ => 0) (FS.mk [] [] []) "C:\\proj\\Project.xml"
          "C:\\out\\plant.json" "C:\\plug\\Exporter.dll" defaultAcadExe
          defaultWorkdir).outcome
        = Outcome.fileNotFound
            (if (FS.mk [] [] []).pathExists (PPath.parse defaultAcadExe).str = false then
              (PPath.parse defaultAcadExe).str
            else if (FS.mk [] [] []).pathExists
                (PPath.parse "C:\\proj\\Project.xml").str = false then
              (PPath.parse "C:\\proj\\Project.xml").str
            else (PPath.parse "C:\\plug\\Exporter.dll").str)
      ∧ (export_plant_json [] (fun _ _ _ => 0) (FS.mk [] [] []) "C:\\proj\\Project.xml"
          "C:\\out\\plant.json" "C:\\plug\\Exporter.dll" defaultAcadExe
          defaultWorkdir).fs = FS.mk [] [] []
      ∧ (export_plant_json [] (fun _ _ _ => 0) (FS.mk [] [] []) "C:\\proj\\Project.xml"
          "C:\\out\\plant.json" "C:\\plug\\Exporter.dll" defaultAcadExe
          defaultWorkdir).launches = []) :=
  ⟨by decide,
   C9_first_missing_in_order [] (fun _ _ _ => 0) (FS.mk [] [] []) "C:\\proj\\Project.xml"
     "C:\\out\\plant.json" "C:\\plug\\Exporter.dll" defaultAcadExe defaultWorkdir
     (by decide)⟩

/-- C3.  When the host launches and terminates with exit code `N` (the
`subprocess.run` oracle reports `N`), `export_plant_json` returns `N`
verbatim — a nonzero `N` is returned, not raised — and the entry point
(`main` followed by `raise SystemExit(main())`) terminates the process
with that same `N`. -/
theorem C3_exit_code_propagated (environ : List (String × String))
    (fs : FS) (repoRoot : String) (N : Int)
    (h1 : fs.pathExists (PPath.parse defaultAcadExe).str = true)
    (h2 : fs.pathExists (PPath.parse (main_project_xml environ)).str = true)
    (h3 : fs.pathExists (PPath.parse (main_plugin_dll environ repoRoot)).str = true) :
    (export_plant_json environ (fun _ _ _ => N) fs (main_project_xml environ)
        (main_out_json_raw environ) (main_plugin_dll environ repoRoot)
        defaultAcadExe defaultWorkdir).outcome = Outcome.ok N
    ∧ (main_fn environ (fun _ _ _ => N) fs repoRoot).outcome = Outcome.ok N
    ∧ script_exit (main_fn environ (fun _ _ _ => N) fs repoRoot) = N := by
  refine ⟨?_, ?_, ?_⟩
  · rw [export_plant_json_ok _ _ _ _ _ _ _ _ h1 h2 h3]
  · unfold main_fn
    cases hdir : fs.isDir (PPath.parse (main_out_json_raw environ)).str with
    | false =>
      simp only [hdir]
      rw [export_plant_json_ok _ _ _ _ _ _ _ _ h1 h2 h3]
    | true =>
      simp only [hdir]
      rw [export_plant_json_ok _ _ _ _ _ _ _ _ h1 h2 h3]
  · unfold main_fn
    cases hdir : fs.isDir (PPath.parse (main_out_json_raw environ)).str with
    | false =>
      simp only [hdir]
      rw [export_plant_json_ok _ _ _ _ _ _ _ _ h1 h2 h3]
      rfl
    | true =>
      simp only [hdir]
      rw [export_plant_json_ok _ _ _ _ _ _ _ _ h1 h2 h3]
      rfl

/-- The default world for the end-to-end entry-point scenario: the
default host executable, the default project file, and the release
plugin DLL under repository root `C:\repo` all exist. -/
def fsDefaults : FS :=
  ⟨["C:\\Program Files\\Autodesk\\AutoCAD 2026\\acad.exe",
    "C:\\Users\\aleja\\Downloads\\NIRAS P3D Demo Project\\P3D-FBUK Example Project\\Project.xml",
    "C:\\repo\\addin\\bin\\Release\\net8.0-windows\\PlantJsonExporter.dll"], [], []⟩

/-- C3 witness: host exit code 7 is returned as-is and becomes the entry
point's own exit code. -/
theorem C3_exit_code_propagated_witness :
    (fsDefaults.pathExists (PPath.parse defaultAcadExe).str = true
      ∧ fsDefaults.pathExists (PPath.parse (main_project_xml [])).str = true
      ∧ fsDefaults.pathExists (PPath.parse (main_plugin_dll [] "C:\\repo")).str = true)
    ∧ ((export_plant_json [] (fun _ _ _ => (7 : Int)) fsDefaults (main_project_xml [])
          (main_out_json_raw []) (main_plugin_dll [] "C:\\repo")
          defaultAcadExe defaultWorkdir).outcome = Outcome.ok 7
      ∧ (main_fn [] (fun _ _ _ => (7 : Int)) fsDefaults "C:\\repo").outcome = Outcome.ok 7
      ∧ script_exit (main_fn [] (fun _ _ _ => (7 : Int)) fsDefaults "C:\\repo") = 7) :=
  ⟨⟨by decide, by decide, by decide⟩,
   C3_exit_code_propagated [] fsDefaults "C:\\repo" 7 (by decide) (by decide) (by decide)⟩

/-- C4.  The script text is a pure function of the plugin binary path:
any successful run stores exactly `scr_text_of plugin` — an expression
in which neither the project file path nor the output artifact path
occurs — at the script location, so two runs sharing a plugin path (and
working directory, which fixes the script location) store byte-identical
script text even when ambient environment, filesystem, oracle, project
path, output path, and host path all differ. -/
theorem C4_script_pure_in_plugin
    (e1 e2 : List (String × String))
    (r1 r2 : List String → List (String × String) → String → Int)
    (fs1 fs2 : FS) (p1 p2 o1 o2 plugin_dll a1 a2 workdir : String)
    (h11 : fs1.pathExists (PPath.parse a1).str = true)
    (h12 : fs1.pathExists (PPath.parse p1).str = true)
    (h13 : fs1.pathExists (PPath.parse plugin_dll).str = true)
    (h21 : fs2.pathExists (PPath.parse a2).str = true)
    (h22 : fs2.pathExists (PPath.parse p2).str = true)
    (h23 : fs2.pathExists (PPath.parse plugin_dll).str = true) :
    (export_plant_json e1 r1 fs1 p1 o1 plugin_dll a1 workdir).fs.readText
        ((PPath.parse workdir).join "run.scr").str
      = some (scr_text_of (PPath.parse plugin_dll))
    ∧ (export_plant_json e1 r1 fs1 p1 o1 plugin_dll a1 workdir).fs.readText
        ((PPath.parse workdir).join "run.scr").str
      = (export_plant_json e2 r2 fs2 p2 o2 plugin_dll a2 workdir).fs.readText
        ((PPath.parse workdir).join "run.scr").str := by
  rw [export_plant_json_ok _ _ _ _ _ _ _ _ h11 h12 h13,
    export_plant_json_ok _ _ _ _ _ _ _ _ h21 h22 h23]
  simp [FS.readText_writeText]

/-- A second world for the purity witness, differing from `fsScenarioA`
in every run parameter except the plugin path and working directory. -/
def fsScenarioA : FS :=
  ⟨["C:\\acad.exe", "C:\\proj\\Project.xml", "C:\\plug\\Exporter.dll",
    "C:\\outdir"], ["C:\\outdir"], []⟩

def fsScenarioA2 : FS :=
  ⟨["D:\\other\\acad.exe", "D:\\other\\P.xml", "C:\\plug\\Exporter.dll"], [], []⟩

/-- C4 witness: two runs differing in everything but the plugin path and
working directory store the same script text. -/
theorem C4_script_pure_in_plugin_witness :
    (fsScenarioA.pathExists (PPath.parse "C:\\acad.exe").str = true
      ∧ fsScenarioA.pathExists (PPath.parse "C:\\proj\\Project.xml").str = true
      ∧ fsScenarioA.pathExists (PPath.parse "C:\\plug\\Exporter.dll").str = true
      ∧ fsScenarioA2.pathExists (PPath.parse "D:\\other\\acad.exe").str = true
      ∧ fsScenarioA2.pathExists (PPath.parse "D:\\other\\P.xml").str = true
      ∧ fsScenarioA2.pathExists (PPath.parse "C:\\plug\\Exporter.dll").str = true)
    ∧ ((export_plant_json [("HOME", "C:\\Users\\a")] (fun _ _ _ => 0) fsScenarioA
          "C:\\proj\\Project.xml" "C:\\out\\a.json" "C:\\plug\\Exporter.dll"
          "C:\\acad.exe" defaultWorkdir).fs.readText
          ((PPath.parse defaultWorkdir).join "run.scr").str
        = some (scr_text_of (PPath.parse "C:\\plug\\Exporter.dll"))
      ∧ (export_plant_json [("HOME", "C:\\Users\\a")] (fun _ _ _ => 0) fsScenarioA
          "C:\\proj\\Project.xml" "C:\\out\\a.json" "C:\\plug\\Exporter.dll"
          "C:\\acad.exe" defaultWorkdir).fs.readText
          ((PPath.parse defaultWorkdir).join "run.scr").str
        = (export_plant_json [] (fun _ _ _ => 1) fsScenarioA2
          "D:\\other\\P.xml" "D:\\b.json" "C:\\plug\\Exporter.dll"
          "D:\\other\\acad.exe" defaultWorkdir).fs.readText
          ((PPath.parse defaultWorkdir).join "run.scr").str) :=
  ⟨⟨by decide, by decide, by decide, by decide, by decide, by decide⟩,
   C4_script_pure_in_plugin [("HOME", "C:\\Users\\a")] [] (fun _ _ _ => 0)
     (fun _ _ _ => 1) fsScenarioA fsScenarioA2 "C:\\proj\\Project.xml" "D:\\other\\P.xml"
     "C:\\out\\a.json" "D:\\b.json" "C:\\plug\\Exporter.dll" "C:\\acad.exe"
     "D:\\other\\acad.exe" defaultWorkdir
     (by decide) (by decide) (by decide) (by decide) (by decide) (by decide)⟩

/-- C5.  On the success path the script file is written to
`<workdir>\run.scr` and the host is launched exactly once with argument
vector `[host, "/product", "PLNT3D", "/b", <workdir>\run.scr]` and with
the child's working directory set to the request's working directory. -/
theorem C5_invocation_shape (environ : List (String × String))
    (run : List String → List (String × String) → String → Int)
    (fs : FS) (project_xml out_json plugin_dll acad_exe workdir : String)
    (h1 : fs.pathExists (PPath.parse acad_exe).str = true)
    (h2 : fs.pathExists (PPath.parse project_xml).str = true)
    (h3 : fs.pathExists (PPath.parse plugin_dll).str = true) :
    (export_plant_json environ run fs project_xml out_json plugin_dll
        acad_exe workdir).launches.map LaunchRecord.cmd
      = [[(PPath.parse acad_exe).str, "/product", "PLNT3D", "/b",
          ((PPath.parse workdir).join "run.scr").str]]
    ∧ (export_plant_json environ run fs project_xml out_json plugin_dll
        acad_exe workdir).launches.map LaunchRecord.cwd
      = [(PPath.parse workdir).str]
    ∧ (export_plant_json environ run fs project_xml out_json plugin_dll
        acad_exe workdir).fs.readText ((PPath.parse workdir).join "run.scr").str
      = some (scr_text_of (PPath.parse plugin_dll)) := by
  rw [export_plant_json_ok _ _ _ _ _ _ _ _ h1 h2 h3]
  simp [FS.readText_writeText]

/-- C5 witness: with the default working directory the script lands at
`C:\PlantAutomationRun\run.scr` and the argument vector is exactly the
documented one. -/
theorem C5_invocation_shape_witness :
    (fsScenarioA.pathExists (PPath.parse "C:\\acad.exe").str = true
      ∧ fsScenarioA.pathExists (PPath.parse "C:\\proj\\Project.xml").str = true
      ∧ fsScenarioA.pathExists (PPath.parse "C:\\plug\\Exporter.dll").str = true)
    ∧ ((export_plant_json [] (fun _ _ _ => 0) fsScenarioA "C:\\proj\\Project.xml"
          "C:\\out\\a.json" "C:\\plug\\Exporter.dll" "C:\\acad.exe"
          defaultWorkdir).launches.map LaunchRecord.cmd
        = [[(PPath.parse "C:\\acad.exe").str, "/product", "PLNT3D", "/b",
            ((PPath.parse defaultWorkdir).join "run.scr").str]]
      ∧ (export_plant_json [] (fun _ _ _ => 0) fsScenarioA "C:\\proj\\Project.xml"
          "C:\\out\\a.json" "C:\\plug\\Exporter.dll" "C:\\acad.exe"
          defaultWorkdir).launches.map LaunchRecord.cwd
        = [(PPath.parse defaultWorkdir).str]
      ∧ (export_plant_json [] (fun _ _ _ => 0) fsScenarioA "C:\\proj\\Project.xml"
          "C:\\out\\a.json" "C:\\plug\\Exporter.dll" "C:\\acad.exe"
          defaultWorkdir).fs.readText ((PPath.parse defaultWorkdir).join "run.scr").str
        = some (scr_text_of (PPath.parse "C:\\plug\\Exporter.dll"))) :=
  ⟨⟨by decide, by decide, by decide⟩,
   C5_invocation_shape [] (fun _ _ _ => 0) fsScenarioA "C:\\proj\\Project.xml"
     "C:\\out\\a.json" "C:\\plug\\Exporter.dll" "C:\\acad.exe" defaultWorkdir
     (by decide) (by decide) (by decide)⟩

/-- C6.  The child's environment is the caller's ambient environment
with the bindings for `PLANT_PROJECT_XML` and `PLANT_JSON_OUT` set to
the project and output path strings, agreeing with the ambient
environment on every other variable, and the caller's own environment is
left unchanged by the run (the module mutates only a copy). -/
theorem C6_parameter_environment (environ : List (String × String))
    (run : List String → List (String × String) → String → Int)
    (fs : FS) (project_xml out_json plugin_dll acad_exe workdir : String)
    (h1 : fs.pathExists (PPath.parse acad_exe).str = true)
    (h2 : fs.pathExists (PPath.parse project_xml).str = true)
    (h3 : fs.pathExists (PPath.parse plugin_dll).str = true) :
    (export_plant_json environ run fs project_xml out_json plugin_dll
        acad_exe workdir).environ = environ
    ∧ ∀ l ∈ (export_plant_json environ run fs project_xml out_json plugin_dll
        acad_exe workdir).launches,
        lookupStr l.env "PLANT_PROJECT_XML" = some (PPath.parse project_xml).str
        ∧ lookupStr l.env "PLANT_JSON_OUT" = some (PPath.parse out_json).str
        ∧ ∀ k, k ≠ "PLANT_PROJECT_XML" → k ≠ "PLANT_JSON_OUT" →
            lookupStr l.env k = lookupStr environ k := by
  rw [export_plant_json_ok _ _ _ _ _ _ _ _ h1 h2 h3]
  refine ⟨rfl, ?_⟩
  intro l hl
  simp only [List.mem_singleton] at hl
  subst hl
  refine ⟨?_, ?_, ?_⟩
  · rw [lookupStr_setStr_other _ _ _ _ (by decide), lookupStr_setStr_self]
  · exact lookupStr_setStr_self _ _ _
  · intro k hk1 hk2
    rw [lookupStr_setStr_other _ _ _ _ (Ne.symm hk2),
      lookupStr_setStr_other _ _ _ _ (Ne.symm hk1)]

/-- C6 witness: at a concrete ambient environment the child sees the two
parameter variables and an untouched `HOME`, and the ambient environment
survives the call unchanged. -/
theorem C6_parameter_environment_witness :
    (fsScenarioA.pathExists (PPath.parse "C:\\acad.exe").str = true
      ∧ fsScenarioA.pathExists (PPath.parse "C:\\proj\\Project.xml").str = true
      ∧ fsScenarioA.pathExists (PPath.parse "C:\\plug\\Exporter.dll").str = true)
    ∧ ((export_plant_json [("HOME", "C:\\Users\\a")] (fun _ _ _ => 0) fsScenarioA
          "C:\\proj\\Project.xml" "C:\\out\\a.json" "C:\\plug\\Exporter.dll"
          "C:\\acad.exe" defaultWorkdir).environ = [("HOME", "C:\\Users\\a")]
      ∧ ∀ l ∈ (export_plant_json [("HOME", "C:\\Users\\a")] (fun _ _ _ => 0) fsScenarioA
          "C:\\proj\\Project.xml" "C:\\out\\a.json" "C:\\plug\\Exporter.dll"
          "C:\\acad.exe" defaultWorkdir).launches,
          lookupStr l.env "PLANT_PROJECT_XML" = some (PPath.parse "C:\\proj\\Project.xml").str
          ∧ lookupStr l.env "PLANT_JSON_OUT" = some (PPath.parse "C:\\out\\a.json").str
          ∧ ∀ k, k ≠ "PLANT_PROJECT_XML" → k ≠ "PLANT_JSON_OUT" →
              lookupStr l.env k = lookupStr [("HOME", "C:\\Users\\a")] k) :=
  ⟨⟨by decide, by decide, by decide⟩,
   C6_parameter_environment [("HOME", "C:\\Users\\a")] (fun _ _ _ => 0) fsScenarioA
     "C:\\proj\\Project.xml" "C:\\out\\a.json" "C:\\plug\\Exporter.dll"
     "C:\\acad.exe" defaultWorkdir (by decide) (by decide) (by decide)⟩

/-- A world in which the project file exists under a relative path and
the output path is also relative. -/
def fsRelative : FS :=
  ⟨["C:\\acad.exe", "data\\proj.xml", "C:\\plug\\Exporter.dll"], [], []⟩

/-- C7 counterexample.  The claim says the two environment variables
always carry absolute paths even when the caller supplied relative ones.
With relative inputs `data\proj.xml` and `out\res.json` the child
environment carries exactly those relative strings — `Path(...)` never
absolutizes — so the claim is false. -/
theorem C7_absolute_paths_counterexample :
    (export_plant_json [] (fun _ _ _ => 0) fsRelative "data\\proj.xml" "out\\res.json"
        "C:\\plug\\Exporter.dll" "C:\\acad.exe" defaultWorkdir).launches.map
        (fun l => lookupStr l.env "PLANT_PROJECT_XML")
      = [some "data\\proj.xml"]
    ∧ (PPath.parse "data\\proj.xml").isAbsolute = false
    ∧ (export_plant_json [] (fun _ _ _ => 0) fsRelative "data\\proj.xml" "out\\res.json"
        "C:\\plug\\Exporter.dll" "C:\\acad.exe" defaultWorkdir).launches.map
        (fun l => lookupStr l.env "PLANT_JSON_OUT")
      = [some "out\\res.json"]
    ∧ (PPath.parse "out\\res.json").isAbsolute = false := by
  decide

/-- C7 (amended).  Each supplied path is wrapped as a `Path` value,
which normalizes separators and redundant components but does not
absolutize; the two environment variables exposed to the child carry
exactly the rendered forms `str(Path(project_xml))` and
`str(Path(out_json))`, which remain relative whenever the caller
supplied relative paths. -/
theorem C7_env_carries_rendered_paths (environ : List (String × String))
    (run : List String → List (String × String) → String → Int)
    (fs : FS) (project_xml out_json plugin_dll acad_exe workdir : String)
    (h1 : fs.pathExists (PPath.parse acad_exe).str = true)
    (h2 : fs.pathExists (PPath.parse project_xml).str = true)
    (h3 : fs.pathExists (PPath.parse plugin_dll).str = true) :
    (export_plant_json environ run fs project_xml out_json plugin_dll
        acad_exe workdir).launches.map
        (fun l => (lookupStr l.env "PLANT_PROJECT_XML", lookupStr l.env "PLANT_JSON_OUT"))
      = [(some (PPath.parse project_xml).str, some (PPath.parse out_json).str)] := by
  rw [export_plant_json_ok _ _ _ _ _ _ _ _ h1 h2 h3]
  simp only [List.map_cons, List.map_nil]
  rw [lookupStr_setStr_other _ _ _ _ (by decide), lookupStr_setStr_self,
    lookupStr_setStr_self]

/-- C7 witness: the amended statement at the relative-path world. -/
theorem C7_env_carries_rendered_paths_witness :
    (fsRelative.pathExists (PPath.parse "C:\\acad.exe").str = true
      ∧ fsRelative.pathExists (PPath.parse "data\\proj.xml").str = true
      ∧ fsRelative.pathExists (PPath.parse "C:\\plug\\Exporter.dll").str = true)
    ∧ (export_plant_json [] (fun _ _ _ => 0) fsRelative "data\\proj.xml" "out\\res.json"
        "C:\\plug\\Exporter.dll" "C:\\acad.exe" defaultWorkdir).launches.map
        (fun l => (lookupStr l.env "PLANT_PROJECT_XML", lookupStr l.env "PLANT_JSON_OUT"))
      = [(some (PPath.parse "data\\proj.xml").str, some (PPath.parse "out\\res.json").str)] :=
  ⟨⟨by decide, by decide, by decide⟩,
   C7_env_carries_rendered_paths [] (fun _ _ _ => 0) fsRelative "data\\proj.xml"
     "out\\res.json" "C:\\plug\\Exporter.dll" "C:\\acad.exe" defaultWorkdir
     (by decide) (by decide) (by decide)⟩

/-- C8.  In the entry point, when the resolved output artifact path
denotes an existing directory, `main` hands `export_plant_json` that
directory joined with the fixed default filename `plant_export.json` (it
otherwise forwards the resolved values and the default host executable
and working directory unchanged). -/
theorem C8_dir_gets_default_filename (environ : List (String × String))
    (run : List String → List (String × String) → String → Int)
    (fs : FS) (repoRoot : String)
    (hdir : fs.isDir (PPath.parse (main_out_json_raw environ)).str = true) :
    main_fn environ run fs repoRoot
      = export_plant_json environ run fs (main_project_xml environ)
          (((PPath.parse (main_out_json_raw environ)).join "plant_export.json").str)
          (main_plugin_dll environ repoRoot) defaultAcadExe defaultWorkdir := by
  simp [main_fn, hdir]

/-- C8 witness: with `PLANT_JSON_OUT` set to the existing directory
`C:\outdir`, the entry point runs the export against
`C:\outdir\plant_export.json`. -/
theorem C8_dir_gets_default_filename_witness :
    fsScenarioA.isDir (PPath.parse (main_out_json_raw [("PLANT_JSON_OUT", "C:\\outdir")])).str = true
    ∧ main_fn [("PLANT_JSON_OUT", "C:\\outdir")] (fun _ _ _ => 0) fsScenarioA "C:\\repo"
      = export_plant_json [("PLANT_JSON_OUT", "C:\\outdir")] (fun _ _ _ => 0) fsScenarioA
          (main_project_xml [("PLANT_JSON_OUT", "C:\\outdir")])
          (((PPath.parse (main_out_json_raw [("PLANT_JSON_OUT", "C:\\outdir")])).join
            "plant_export.json").str)
          (main_plugin_dll [("PLANT_JSON_OUT", "C:\\outdir")] "C:\\repo")
          defaultAcadExe defaultWorkdir :=
  ⟨by decide,
   C8_dir_gets_default_filename [("PLANT_JSON_OUT", "C:\\outdir")] (fun _ _ _ => 0)
     fsScenarioA "C:\\repo" (by decide)⟩

/-- C10.  `export_plant_json` itself never performs the
directory-to-default-filename resolution: on a direct call whose
`out_json` denotes an existing directory, the child's `PLANT_JSON_OUT`
is that directory's rendered path itself, with no default filename
appended. -/
theorem C10_export_keeps_dir_out (environ : List (String × String))
    (run : List String → List (String × String) → String → Int)
    (fs : FS) (project_xml out_json plugin_dll acad_exe workdir : String)
    (h1 : fs.pathExists (PPath.parse acad_exe).str = true)
    (h2 : fs.pathExists (PPath.parse project_xml).str = true)
    (h3 : fs.pathExists (PPath.parse plugin_dll).str = true)
    (_hdir : fs.isDir (PPath.parse out_json).str = true) :
    (export_plant_json environ run fs project_xml out_json plugin_dll
        acad_exe workdir).launches.map (fun l => lookupStr l.env "PLANT_JSON_OUT")
      = [some (PPath.parse out_json).str] := by
  rw [export_plant_json_ok _ _ _ _ _ _ _ _ h1 h2 h3]
  simp only [List.map_cons, List.map_nil]
  rw [lookupStr_setStr_self]

/-- C10 witness: a direct call with the existing directory `C:\outdir`
as `out_json` passes `C:\outdir` itself to the child. -/
theorem C10_export_keeps_dir_out_witness :
    (fsScenarioA.pathExists (PPath.parse "C:\\acad.exe").str = true
      ∧ fsScenarioA.pathExists (PPath.parse "C:\\proj\\Project.xml").str = true
      ∧ fsScenarioA.pathExists (PPath.parse "C:\\plug\\Exporter.dll").str = true
      ∧ fsScenarioA.isDir (PPath.parse "C:\\outdir").str = true)
    ∧ (export_plant_json [] (fun _ _ _ => 0) fsScenarioA "C:\\proj\\Project.xml"
        "C:\\outdir" "C:\\plug\\Exporter.dll" "C:\\acad.exe"
        defaultWorkdir).launches.map (fun l => lookupStr l.env "PLANT_JSON_OUT")
      = [some (PPath.parse "C:\\outdir").str] :=
  ⟨⟨by decide, by decide, by decide, by decide⟩,
   C10_export_keeps_dir_out [] (fun _ _ _ => 0) fsScenarioA "C:\\proj\\Project.xml"
     "C:\\outdir" "C:\\plug\\Exporter.dll" "C:\\acad.exe" defaultWorkdir
     (by decide) (by decide) (by decide) (by decide)⟩
